import Mathlib

/-!
Verification of the MM-RAG-FashionFinder match-and-synthesize pipeline.

The Python source is shallowly embedded: catalog rows become records with
optional string fields, machine floats become exact rationals (reals for the
cosine-similarity matcher), HTTP / filesystem / model calls become explicit
outcome parameters, and Python exceptions become `Except` values that the
orchestrator converts to error strings, exactly as the `try/except` blocks do.

Two pieces of the repository are imported by `app.py` but their files are not
part of the source tree (`models/image_processor.py` and `utils/helpers.py`);
the definitions standing for them are marked `Modelled from the spec:` and
follow the specification text.
-/

namespace FashionFinder

/-- A catalog / dataset row as consumed by `llm_service.py` and `app.py`:
the Python code reads the fields `Item Name`, `Brand`, `Price`, `Category`,
`Image URL` with `.get`, so each field is optional. -/
structure Item where
  name : Option String
  brand : Option String
  price : Option String
  category : Option String
  image_url : Option String
deriving DecidableEq, Repr

/-- Result dictionary of `ImageProcessor.encode_image`: keys `vector`,
`base64`, `error` (spec section 6, Encoder capability). -/
structure EncodeResult where
  vector : Option (List ℚ)
  base64 : Option String
  error : Option String
deriving DecidableEq, Repr

/-- Outcome of the `requests.post` call in `OllamaService.generate_response`:
either an HTTP status together with the optional `response` field of the JSON
body, or a raised exception carrying its message. -/
inductive PostResult where
  | ok (status : Nat) (content : Option String)
  | exn (msg : String)
deriving DecidableEq, Repr

/- ------------------------------------------------------------------ -/
/- Substring occurrence, modelling Python's `in` operator on strings. -/

/-- `leads pat s` holds when `pat` appears at the very start of `s`. -/
def leads : List Char → List Char → Bool
  | [], _ => true
  | _ :: _, [] => false
  | a :: ps, b :: ss => a = b && leads ps ss

/-- `occurs pat s` holds when `pat` appears somewhere inside `s`
(Python `pat in s`). -/
def occurs (pat : List Char) : List Char → Bool
  | [] => leads pat []
  | b :: ss => leads pat (b :: ss) || occurs pat ss

/-- String-level substring test, modelling Python's `in`. -/
def str_occurs (pat s : String) : Bool :=
  occurs pat.data s.data

/-- Model of Python's `str.strip()`: drop whitespace from both ends. -/
def strip (s : String) : String :=
  String.mk
    (((s.data.dropWhile Char.isWhitespace).reverse.dropWhile
        Char.isWhitespace).reverse)

theorem leads_append (p r : List Char) : leads p (p ++ r) = true := by
  induction p with
  | nil => rfl
  | cons a ps ih => simp [leads, ih]

theorem occurs_of_leads {p s : List Char} (h : leads p s = true) :
    occurs p s = true := by
  cases s with
  | nil => simpa [occurs] using h
  | cons b ss => simp [occurs, h]

theorem occurs_here (p r : List Char) : occurs p (p ++ r) = true :=
  occurs_of_leads (leads_append p r)

theorem occurs_append_right (l : List Char) {p m : List Char}
    (h : occurs p m = true) : occurs p (l ++ m) = true := by
  induction l with
  | nil => simpa using h
  | cons a ls ih => simp [occurs, ih]

theorem occurs_self (p : List Char) : occurs p p = true := by
  have := occurs_here p []
  simpa using this

/- ------------------------------------------------------------------ -/
/- Numeric formatting: model of Python's f"{x:.2f}".                  -/

/-- Model of the Python format specifier `:.2f` on a similarity score:
round to hundredths and print with exactly two decimal digits. -/
def fmt2 (q : ℚ) : String :=
  let n : Int := round (q * 100)
  let m : Nat := n.natAbs
  (if n < 0 then "-" else "") ++ toString (m / 100) ++ "." ++
    (if m % 100 < 10 then "0" else "") ++ toString (m % 100)

/- ------------------------------------------------------------------ -/
/- config.py                                                          -/

/-- `config.SIMILARITY_THRESHOLD` (config.py line 15). -/
def SIMILARITY_THRESHOLD : ℚ := 8 / 10

/- ------------------------------------------------------------------ -/
/- models/llm_service.py                                              -/

/-- The bullet built for one related item in
`OllamaService.generate_fashion_response` (llm_service.py lines 135-142):
the name always, then price / brand / image link only when present. -/
def item_info (item : Item) : String :=
  "* " ++ item.name.getD "Unknown Item"
    ++ (match item.price with
        | some p => " - Price: " ++ p
        | none => "")
    ++ (match item.brand with
        | some b => " - Brand: " ++ b
        | none => "")
    ++ (match item.image_url with
        | some u => " - [View Image](" ++ u ++ ")"
        | none => "")

/-- The `items_list` accumulated over `all_items.iterrows()`. -/
def items_list (all_items : List Item) : List String :=
  all_items.map item_info

/-- `items_text = "\n".join(items_list)`. -/
def items_text (all_items : List Item) : String :=
  String.intercalate "\n" (items_list all_items)

/-- `match_quality` chosen in llm_service.py lines 148-153. -/
def match_quality (similarity_score threshold : ℚ) : String :=
  if similarity_score ≥ threshold then "excellent match" else "similar item"

/-- `confidence` chosen in llm_service.py lines 148-153. -/
def confidence (similarity_score threshold : ℚ) : String :=
  if similarity_score ≥ threshold then "high confidence" else "moderate confidence"

/-- The fashion-analysis prompt f-string (llm_service.py lines 156-176). -/
def fashion_prompt (mq conf : String) (similarity_score : ℚ)
    (matched_row : Item) (itxt : String) : String :=
  "You are a fashion expert analyzing a user\x27s uploaded image. \n\nThe user\x27s image has been matched with "
    ++ mq ++ " in our database with " ++ conf ++ " (similarity score: "
    ++ fmt2 similarity_score ++ ").\n\nMATCHED ITEM DETAILS:\n- Item Name: "
    ++ matched_row.name.getD "Unknown" ++ "\n- Brand: "
    ++ matched_row.brand.getD "Unknown" ++ "\n- Price: "
    ++ matched_row.price.getD "Unknown" ++ "\n- Category: "
    ++ matched_row.category.getD "Unknown" ++ "\n\nRELATED ITEMS IN DATABASE:\n"
    ++ itxt
    ++ "\n\nPlease provide a detailed fashion analysis including:\n1. Description of the main item in the user\x27s image\n2. Style analysis (colors, patterns, fit, occasion)\n3. Fashion recommendations and styling tips\n4. Similar alternatives from our database\n\nKeep the response informative, engaging, and fashion-focused. Use markdown formatting for better readability."

/-- The fallback report f-string (llm_service.py lines 182-196). -/
def fallback_report (mq : String) (matched_row : Item) (similarity_score : ℚ)
    (itxt : String) : String :=
  "## Fashion Analysis Results\n\nBased on your image, I\x27ve identified a "
    ++ mq ++ " in our database:\n\n**Matched Item:** "
    ++ matched_row.name.getD "Unknown" ++ "\n**Brand:** "
    ++ matched_row.brand.getD "Unknown" ++ "\n**Price:** "
    ++ matched_row.price.getD "Unknown" ++ "\n**Similarity Score:** "
    ++ fmt2 similarity_score
    ++ "\n\n## Related Items Found\n\n"
    ++ itxt
    ++ "\n\n*Note: The AI analysis was incomplete, but here are the items we found in our database that match your image.*"

/-- `OllamaService.generate_response` (llm_service.py lines 61-114): the
backend call either returns a status and JSON body or raises; every outcome
is rendered as a string, never re-raised. -/
def generate_response (backend : String → Option String → PostResult)
    (prompt : String) (image_base64 : Option String) : String :=
  match backend prompt image_base64 with
  | .exn e => "Error generating response: " ++ e
  | .ok status content =>
      if status = 200 then content.getD ""
      else "Error generating response: HTTP " ++ toString status

/-- `OllamaService.generate_fashion_response` (llm_service.py lines 116-206):
build the items listing and the prompt, call the backend, substitute the
fallback report when the reply's stripped length is under 100 characters, and
append the related-items listing when the reply lacks a related-items
header. -/
def generate_fashion_response (backend : String → Option String → PostResult)
    (user_image_base64 : Option String) (matched_row : Item)
    (all_items : List Item) (similarity_score threshold : ℚ) : String :=
  let itxt := items_text all_items
  let mq := match_quality similarity_score threshold
  let conf := confidence similarity_score threshold
  let prompt := fashion_prompt mq conf similarity_score matched_row itxt
  let response := generate_response backend prompt user_image_base64
  let response2 :=
    if response = "" ∨ (strip response).length < 100 then
      fallback_report mq matched_row similarity_score itxt
    else response
  if str_occurs "RELATED ITEMS" response2 = false ∧
     str_occurs "Related Items" response2 = false then
    response2 ++ "\n\n## Related Items Found\n\n" ++ itxt
  else response2

/- ------------------------------------------------------------------ -/
/- utils/helpers.py (not in the source tree) and app.py grouping.     -/

/-- Modelled from the spec: `get_all_items_for_image` lives in
`utils/helpers.py`, which is not part of the source tree; per spec section
4.2 the grouper selects every catalog entry whose source identifier equals
the given one and is non-empty. -/
def get_all_items_for_image (image_url : String) (data : List Item) : List Item :=
  if image_url = "" then []
  else data.filter (fun r => r.image_url.getD "" = image_url)

/-- The single-item fallback row built in `StyleFinderApp.process_image`
(app.py lines 112-118) when no related items are found. -/
def synth_single (closest_row : Item) : Item :=
  { name := some (closest_row.name.getD "Fashion Item"),
    brand := some (closest_row.brand.getD "Unknown"),
    price := some (closest_row.price.getD "N/A"),
    category := some (closest_row.category.getD "Fashion"),
    image_url := some (closest_row.image_url.getD "") }

/-- Step 3 of `StyleFinderApp.process_image` (app.py lines 109-122): fetch the
related items and fall back to the synthesized singleton when the selection
is empty. -/
def related_items (closest_row : Item) (data : List Item) : List Item :=
  let all_items := get_all_items_for_image (closest_row.image_url.getD "") data
  if all_items = [] then [synth_single closest_row] else all_items

/- ------------------------------------------------------------------ -/
/- app.py: StyleFinderApp.__init__                                    -/

/-- A dataset row of the pickled DataFrame: the dummy dataset populates every
column, with an embedding vector per row. -/
structure DataRow where
  item_name : String
  brand : String
  price : String
  category : String
  image_url : String
  embedding : List ℚ
deriving DecidableEq, Repr

/-- The dummy dataset built in `StyleFinderApp.__init__` (app.py lines 40-48);
`rand i n` stands for the i-th draw of `np.random.random(n)`. -/
def dummy_dataset (rand : ℕ → ℕ → List ℚ) : List DataRow :=
  [ { item_name := "Elegant Blazer", brand := "Fashion House", price := "$299",
      category := "Blazer", image_url := "http://example.com/blazer.jpg",
      embedding := rand 0 1000 },
    { item_name := "Classic Shirt", brand := "Style Co.", price := "$89",
      category := "Shirt", image_url := "http://example.com/shirt.jpg",
      embedding := rand 1 1000 },
    { item_name := "Designer Dress", brand := "Trendy Brand", price := "$199",
      category := "Dress", image_url := "http://example.com/dress.jpg",
      embedding := rand 2 1000 } ]

/-- Dataset-loading logic of `StyleFinderApp.__init__` (app.py lines 33-48):
`on_disk` is `os.path.exists`, `read_pickle` is `pd.read_pickle` (which may
raise, hence `Except`), `rand` stands for `np.random.random`. An existing,
truthy path is read and rejected when empty; any other path silently yields
the dummy dataset. -/
def style_finder_init (dataset_path : Option String) (on_disk : String → Bool)
    (read_pickle : String → Except String (List DataRow))
    (rand : ℕ → ℕ → List ℚ) : Except String (List DataRow) :=
  match dataset_path with
  | some p =>
      if p ≠ "" ∧ on_disk p = true then
        match read_pickle p with
        | .error e => .error e
        | .ok d => if d = [] then .error "The loaded dataset is empty" else .ok d
      else .ok (dummy_dataset rand)
  | none => .ok (dummy_dataset rand)

/- ------------------------------------------------------------------ -/
/- app.py: StyleFinderApp.process_image                               -/

/-- The pipeline stages of `process_image`, recorded in order of execution so
that short-circuiting is visible in the result. -/
inductive Stage where
  | resolve
  | encode
  | matchStage
  | group
  | synth
  | cleanup
  | format
deriving DecidableEq, Repr

/-- An element of a Gradio `File` list: a file object carrying `.name`, or a
plain string path. -/
inductive GradioElem where
  | fileObj (n : String)
  | strPath (p : String)
deriving DecidableEq, Repr

/-- The `image` argument of `process_image`: file object, string path, a list
of elements, or anything else (which the code rejects). -/
inductive GradioInput where
  | fileObj (n : String)
  | strPath (p : String)
  | listInput (elems : List GradioElem)
  | other
deriving DecidableEq, Repr

/-- Input resolution of `process_image` (app.py lines 73-85): file objects
yield `.name`, strings yield themselves, a non-empty list yields its first
element, everything else is invalid. -/
def resolve_path : GradioInput → Option String
  | .fileObj n => some n
  | .strPath p => some p
  | .listInput (GradioElem.fileObj n :: _) => some n
  | .listInput (GradioElem.strPath p :: _) => some p
  | .listInput [] => none
  | .other => none

/-- The cleanup guard of app.py line 134: the input is a file object whose
name starts with `/tmp/` (`leads` models Python's `startswith`). -/
def is_tmp_file_obj : GradioInput → Bool
  | .fileObj n => leads ("/tmp/").data n.data
  | _ => false

/-- External collaborators of the orchestrator. Each fallible call returns
`Except String`, whose `.error` case stands for a raised Python exception
(caught by the `try/except` of `process_image`); `unlink_ok` is the outcome
of `os.unlink`, whose failure the code swallows. -/
structure Env where
  file_on_disk : String → Bool
  encode_image : String → Except String EncodeResult
  find_closest : List ℚ → Except String (Option (Item × ℚ))
  get_all_items : String → Except String (List Item)
  gen_fashion : Option String → Item → List Item → ℚ → Except String String
  do_process_response : String → Except String String
  unlink_ok : String → Bool

/-- `StyleFinderApp.process_image` (app.py lines 62-146), instrumented with
the list of stages executed. Every outcome is a plain string: raised
exceptions from collaborators are caught and rendered as
`"Error processing image: ..."`, stage-local failures return their
stage-specific error string immediately. -/
def process_image (env : Env) (image : GradioInput) : String × List Stage :=
  match resolve_path image with
  | none => ("Error: Invalid image format received", [Stage.resolve])
  | some image_path =>
    if env.file_on_disk image_path = false then
      ("Error: Image file not found at " ++ image_path, [Stage.resolve])
    else
      match env.encode_image image_path with
      | .error e =>
          ("Error processing image: " ++ e, [Stage.resolve, Stage.encode])
      | .ok user_encoding =>
        match user_encoding.vector with
        | none =>
            ("Error: " ++
               user_encoding.error.getD
                 "Unable to process the image. Please try another image.",
             [Stage.resolve, Stage.encode])
        | some v =>
          match env.find_closest v with
          | .error e =>
              ("Error processing image: " ++ e,
               [Stage.resolve, Stage.encode, Stage.matchStage])
          | .ok none =>
              ("Error: Unable to find a match. Please try another image.",
               [Stage.resolve, Stage.encode, Stage.matchStage])
          | .ok (some (closest_row, similarity_score)) =>
            match env.get_all_items (closest_row.image_url.getD "") with
            | .error e =>
                ("Error processing image: " ++ e,
                 [Stage.resolve, Stage.encode, Stage.matchStage, Stage.group])
            | .ok items0 =>
              let all_items :=
                if items0 = [] then [synth_single closest_row] else items0
              match env.gen_fashion user_encoding.base64 closest_row all_items
                      similarity_score with
              | .error e =>
                  ("Error processing image: " ++ e,
                   [Stage.resolve, Stage.encode, Stage.matchStage, Stage.group,
                    Stage.synth])
              | .ok bot_response =>
                let stages :=
                  [Stage.resolve, Stage.encode, Stage.matchStage, Stage.group,
                   Stage.synth] ++
                    (if is_tmp_file_obj image then
                       let _ := env.unlink_ok image_path
                       [Stage.cleanup]
                     else [])
                match env.do_process_response bot_response with
                | .error e =>
                    ("Error processing image: " ++ e, stages ++ [Stage.format])
                | .ok out => (out, stages ++ [Stage.format])

/- ------------------------------------------------------------------ -/
/- models/image_processor.py (not in the source tree): the matcher.   -/

/-- Dot product of two embedding vectors. -/
def dotl (a b : List ℝ) : ℝ :=
  (List.zipWith (fun x y => x * y) a b).sum

/-- Modelled from the spec: the cosine similarity used by
`ImageProcessor.find_closest_match` (`models/image_processor.py` is not in
the source tree). Per spec section 4.1 it is dot(q,e)/(norm q * norm e), with
a zero-norm operand giving the minimum possible value -1. -/
noncomputable def sim_val (q e : List ℝ) : ℝ :=
  if dotl q q = 0 ∨ dotl e e = 0 then -1
  else dotl q e / (Real.sqrt (dotl q q) * Real.sqrt (dotl e e))

/-- Modelled from the spec: `ImageProcessor.find_closest_match` (spec section
4.1) — a linear scan returning the index and score of the entry of maximum
cosine similarity, the first such index on exact ties, and `none` only for an
empty catalog. -/
noncomputable def find_closest_match (q : List ℝ) :
    List (List ℝ) → Option (ℕ × ℝ)
  | [] => none
  | e :: rest =>
      match find_closest_match q rest with
      | none => some (0, sim_val q e)
      | some (j, s) =>
          if sim_val q e ≥ s then some (0, sim_val q e) else some (j + 1, s)

theorem find_closest_match_cons (q e : List ℝ) (rest : List (List ℝ)) :
    find_closest_match q (e :: rest) =
      match find_closest_match q rest with
      | none => some (0, sim_val q e)
      | some (j, s) =>
          if sim_val q e ≥ s then some (0, sim_val q e) else some (j + 1, s) :=
  rfl

theorem dotl_self_nonneg (v : List ℝ) : 0 ≤ dotl v v := by
  induction v with
  | nil => simp [dotl]
  | cons x xs ih =>
      have hx : 0 ≤ x * x := mul_self_nonneg x
      simpa [dotl, List.zipWith, List.sum_cons] using add_nonneg hx ih

theorem sim_val_self {q : List ℝ} (h : dotl q q ≠ 0) : sim_val q q = 1 := by
  have hpos : 0 < dotl q q := lt_of_le_of_ne (dotl_self_nonneg q) (Ne.symm h)
  have hs : Real.sqrt (dotl q q) * Real.sqrt (dotl q q) = dotl q q :=
    Real.mul_self_sqrt (le_of_lt hpos)
  simp only [sim_val, h, or_self, if_false]
  rw [hs]
  exact div_self h

/-- Invariants of the linear argmax scan: the returned index is in range, the
returned score is that index's similarity, no index has a larger similarity,
and every earlier index has a strictly smaller one (first-index tie-break). -/
theorem find_closest_match_spec (q : List ℝ) :
    ∀ embs : List (List ℝ), embs ≠ [] →
      ∃ i s, find_closest_match q embs = some (i, s) ∧ i < embs.length ∧
        s = sim_val q (embs.getD i []) ∧
        (∀ j, j < embs.length → sim_val q (embs.getD j []) ≤ s) ∧
        (∀ j, j < i → sim_val q (embs.getD j []) < s) := by
  intro embs
  induction embs with
  | nil => intro h; exact absurd rfl h
  | cons e rest ih =>
    intro _
    cases hrest : rest with
    | nil =>
        refine ⟨0, sim_val q e, ?_, ?_, ?_, ?_, ?_⟩
        · simp [find_closest_match, hrest]
        · simp
        · simp
        · intro j hj
          subst hrest
          have hj0 : j = 0 := by
            simpa [Nat.lt_one_iff] using hj
          subst hj0
          simp
        · intro j hj; omega
    | cons r rs =>
        subst hrest
        obtain ⟨j, s, hfind, hlt, hs, hmax, hstrict⟩ :=
          ih (by simp)
        by_cases hge : sim_val q e ≥ s
        · refine ⟨0, sim_val q e, ?_, ?_, ?_, ?_, ?_⟩
          · rw [find_closest_match_cons, hfind]
            exact if_pos hge
          · simp
          · simp
          · intro k hk
            cases k with
            | zero => simp
            | succ m =>
                have hm : m < (r :: rs).length := by
                  simpa using Nat.lt_of_succ_lt_succ hk
                have := hmax m hm
                calc sim_val q ((e :: r :: rs).getD (m + 1) [])
                    = sim_val q ((r :: rs).getD m []) := by
                      simp [List.getD_cons_succ]
                  _ ≤ s := this
                  _ ≤ sim_val q e := hge
          · intro k hk; omega
        · push_neg at hge
          refine ⟨j + 1, s, ?_, ?_, ?_, ?_, ?_⟩
          · rw [find_closest_match_cons, hfind]
            exact if_neg (not_le.mpr hge)
          · simpa using Nat.succ_lt_succ hlt
          · simpa [List.getD_cons_succ] using hs
          · intro k hk
            cases k with
            | zero => simpa using le_of_lt hge
            | succ m =>
                have hm : m < (r :: rs).length := by
                  simpa using Nat.lt_of_succ_lt_succ hk
                simpa [List.getD_cons_succ] using hmax m hm
          · intro k hk
            cases k with
            | zero => simpa using hge
            | succ m =>
                have hm : m < j := Nat.lt_of_succ_lt_succ hk
                simpa [List.getD_cons_succ] using hstrict m hm

/- ------------------------------------------------------------------ -/
/- Claim theorems                                                     -/

/-- Claim C8: for every non-empty catalog and every query vector of matching
dimensionality, the similarity matcher returns the entry whose embedding has
the maximum cosine similarity to the query, breaking exact ties by the lowest
catalog index; a query equal to one entry's (non-degenerate, uniquely
maximizing) embedding yields that entry with score exactly 1. -/
theorem claim_C8_matcher_argmax (q : List ℝ) (embs : List (List ℝ))
    (hne : embs ≠ []) (_hdim : ∀ v ∈ embs, v.length = q.length) :
    ∃ i s, find_closest_match q embs = some (i, s) ∧ i < embs.length ∧
      s = sim_val q (embs.getD i []) ∧
      (∀ j, j < embs.length → sim_val q (embs.getD j []) ≤ s) ∧
      (∀ j, j < i → sim_val q (embs.getD j []) < s) ∧
      (∀ k, k < embs.length → embs.getD k [] = q → dotl q q ≠ 0 →
        (∀ j, j < embs.length → j ≠ k → sim_val q (embs.getD j []) < 1) →
        i = k ∧ s = 1) := by
  obtain ⟨i, s, hf, hi, hs, hmax, hstrict⟩ := find_closest_match_spec q embs hne
  refine ⟨i, s, hf, hi, hs, hmax, hstrict, ?_⟩
  intro k hk hq hdq huniq
  have hsimk : sim_val q (embs.getD k []) = 1 := by
    rw [hq]; exact sim_val_self hdq
  have h1le : (1 : ℝ) ≤ s := hsimk ▸ hmax k hk
  by_cases hik : i = k
  · subst hik
    exact ⟨rfl, by rw [hs, hsimk]⟩
  · have hlt1 : sim_val q (embs.getD i []) < 1 := huniq i hi hik
    rw [← hs] at hlt1
    exact absurd h1le (not_le.mpr hlt1)

/-- Concrete instance of claim C8: a three-entry catalog of unit basis
vectors and a query equal to the second entry. -/
theorem claim_C8_witness :
    (([[(0 : ℝ), 1, 0], [1, 0, 0], [0, 0, 1]] : List (List ℝ)) ≠ []) ∧
    (∀ v ∈ ([[(0 : ℝ), 1, 0], [1, 0, 0], [0, 0, 1]] : List (List ℝ)),
        v.length = ([(1 : ℝ), 0, 0] : List ℝ).length) ∧
    (∃ i s, find_closest_match ([(1 : ℝ), 0, 0])
        ([[(0 : ℝ), 1, 0], [1, 0, 0], [0, 0, 1]]) = some (i, s)) := by
  refine ⟨by simp, ?_, ?_⟩
  · intro v hv
    fin_cases hv <;> rfl
  · obtain ⟨i, s, hf, -⟩ :=
      claim_C8_matcher_argmax ([(1 : ℝ), 0, 0])
        ([[(0 : ℝ), 1, 0], [1, 0, 0], [0, 0, 1]]) (by simp)
        (by intro v hv; fin_cases hv <;> rfl)
    exact ⟨i, s, hf⟩

set_option maxRecDepth 8000 in
/-- Claim C5: the synthesizer frames the match as "excellent match" with
"high confidence" exactly when score ≥ threshold, and as "similar item" with
"moderate confidence" otherwise; both framing strings are embedded into the
generation prompt, and the configured threshold constant is 0.8. -/
theorem claim_C5_match_framing :
    (∀ s t : ℚ,
        (match_quality s t = "excellent match" ∧
         confidence s t = "high confidence") ↔ t ≤ s) ∧
    (∀ s t : ℚ,
        (match_quality s t = "similar item" ∧
         confidence s t = "moderate confidence") ↔ s < t) ∧
    SIMILARITY_THRESHOLD = 8 / 10 ∧
    (∀ mq conf sc m itxt,
        str_occurs mq (fashion_prompt mq conf sc m itxt) = true ∧
        str_occurs conf (fashion_prompt mq conf sc m itxt) = true) := by
  refine ⟨?_, ?_, rfl, ?_⟩
  · intro s t
    by_cases h : t ≤ s
    · simp [match_quality, confidence, ge_iff_le, h]
    · simp only [match_quality, confidence, ge_iff_le, if_neg h]
      constructor
      · rintro ⟨h1, -⟩
        exact absurd h1 (by decide)
      · intro hc
        exact absurd hc h
  · intro s t
    by_cases h : t ≤ s
    · simp only [match_quality, confidence, ge_iff_le, if_pos h]
      constructor
      · rintro ⟨h1, -⟩
        exact absurd h1 (by decide)
      · intro hc
        exact absurd h (not_le.mpr hc)
    · simp only [match_quality, confidence, ge_iff_le, if_neg h]
      simp [lt_of_not_le h]
  · intro mq conf sc m itxt
    constructor
    · show occurs mq.data (fashion_prompt mq conf sc m itxt).data = true
      simp only [fashion_prompt, String.data_append, List.append_assoc]
      exact occurs_append_right _ (occurs_here _ _)
    · show occurs conf.data (fashion_prompt mq conf sc m itxt).data = true
      simp only [fashion_prompt, String.data_append, List.append_assoc]
      exact occurs_append_right _ (occurs_append_right _
        (occurs_append_right _ (occurs_here _ _)))

/-- Concrete instance of claim C5: score 0.95 against threshold 0.8 is framed
as an excellent match with high confidence. -/
theorem claim_C5_witness :
    match_quality (19 / 20) SIMILARITY_THRESHOLD = "excellent match" ∧
    confidence (19 / 20) SIMILARITY_THRESHOLD = "high confidence" :=
  (claim_C5_match_framing.1 (19 / 20) SIMILARITY_THRESHOLD).mpr (by norm_num [SIMILARITY_THRESHOLD])

theorem occurs_mid (a b r : List Char) :
    occurs (a ++ b) (a ++ (b ++ r)) = true := by
  rw [← List.append_assoc]
  exact occurs_here _ _

/-- Claim C6: when the related-items selection for a matched entry is empty
(no source identifier, or no siblings), the pipeline builds a singleton group
synthesized from the matched entry's own fields, substituting the documented
defaults "Fashion Item" / "Unknown" / "N/A" / "Fashion" / "" for missing
name / brand / price / category / source identifier. -/
theorem claim_C6_singleton_group (row : Item) (data : List Item)
    (h : get_all_items_for_image (row.image_url.getD "") data = []) :
    related_items row data = [synth_single row] ∧
    (synth_single row).name = some (row.name.getD "Fashion Item") ∧
    (synth_single row).brand = some (row.brand.getD "Unknown") ∧
    (synth_single row).price = some (row.price.getD "N/A") ∧
    (synth_single row).category = some (row.category.getD "Fashion") ∧
    (synth_single row).image_url = some (row.image_url.getD "") ∧
    (row.name = none → (synth_single row).name = some "Fashion Item") ∧
    (row.brand = none → (synth_single row).brand = some "Unknown") ∧
    (row.price = none → (synth_single row).price = some "N/A") ∧
    (row.category = none → (synth_single row).category = some "Fashion") ∧
    (row.image_url = none → (synth_single row).image_url = some "") ∧
    (∀ s, row.name = some s → (synth_single row).name = some s) ∧
    (∀ s, row.brand = some s → (synth_single row).brand = some s) ∧
    (∀ s, row.price = some s → (synth_single row).price = some s) ∧
    (∀ s, row.category = some s → (synth_single row).category = some s) ∧
    (row.image_url.getD "" = "" →
        get_all_items_for_image (row.image_url.getD "") data = []) := by
  refine ⟨by simp [related_items, h], rfl, rfl, rfl, rfl, rfl,
    ?_, ?_, ?_, ?_, ?_, ?_, ?_, ?_, ?_, ?_⟩
  · intro hn; simp [synth_single, hn]
  · intro hn; simp [synth_single, hn]
  · intro hn; simp [synth_single, hn]
  · intro hn; simp [synth_single, hn]
  · intro hn; simp [synth_single, hn]
  · intro s hn; simp [synth_single, hn]
  · intro s hn; simp [synth_single, hn]
  · intro s hn; simp [synth_single, hn]
  · intro s hn; simp [synth_single, hn]
  · intro hu; simp [get_all_items_for_image, hu]

/-- Concrete instance of claim C6: a matched entry with no fields at all and
an empty catalog yields the all-defaults singleton group. -/
theorem claim_C6_witness :
    get_all_items_for_image
        ((Item.mk none none none none none).image_url.getD "") [] = [] ∧
    related_items (Item.mk none none none none none) [] =
      [synth_single (Item.mk none none none none none)] ∧
    synth_single (Item.mk none none none none none) =
      Item.mk (some "Fashion Item") (some "Unknown") (some "N/A")
        (some "Fashion") (some "") := by
  exact ⟨rfl,
    (claim_C6_singleton_group (Item.mk none none none none none) [] rfl).1, rfl⟩

/-- Claim C10: constructing the application with a dataset path that does not
resolve to an existing file does not fail: it silently builds the dummy
three-entry catalog with 1000-dimensional embeddings; among successfully read
datasets, only an empty one makes construction fail with an error. -/
theorem claim_C10_init_dummy (dataset_path : Option String)
    (on_disk : String → Bool)
    (read_pickle : String → Except String (List DataRow))
    (rand : ℕ → ℕ → List ℚ)
    (hrand : ∀ i n, (rand i n).length = n) :
    ((dataset_path = none ∨ dataset_path = some "" ∨
        (∀ p, dataset_path = some p → on_disk p = false)) →
      style_finder_init dataset_path on_disk read_pickle rand =
          .ok (dummy_dataset rand) ∧
        (dummy_dataset rand).length = 3 ∧
        (∀ r ∈ dummy_dataset rand, r.embedding.length = 1000)) ∧
    (∀ p d, dataset_path = some p → p ≠ "" → on_disk p = true →
      read_pickle p = .ok d →
      (style_finder_init dataset_path on_disk read_pickle rand =
          .error "The loaded dataset is empty" ↔ d = [])) := by
  constructor
  · intro hcase
    refine ⟨?_, rfl, ?_⟩
    · rcases hcase with h | h | h
      · simp [style_finder_init, h]
      · simp [style_finder_init, h]
      · cases hdp : dataset_path with
        | none => simp [style_finder_init]
        | some p =>
            have hp := h p hdp
            simp [style_finder_init, hp]
    · intro r hr
      fin_cases hr <;> simp [dummy_dataset, hrand]
  · intro p d hdp hne hdisk hrp
    subst hdp
    by_cases hd : d = []
    · subst hd
      simp [style_finder_init, hne, hdisk, hrp]
    · simp [style_finder_init, hne, hdisk, hrp, hd]

/-- Concrete instance of claim C10: a `none` dataset path with a
`List.replicate` random generator yields the dummy dataset. -/
theorem claim_C10_witness :
    (∀ i n, ((fun (_ : ℕ) (n : ℕ) => List.replicate n (0 : ℚ)) i n).length = n) ∧
    style_finder_init none (fun _ => false) (fun _ => .ok [])
        (fun _ n => List.replicate n (0 : ℚ)) =
      .ok (dummy_dataset (fun _ n => List.replicate n (0 : ℚ))) := by
  refine ⟨fun i n => by simp, ?_⟩
  exact ((claim_C10_init_dummy none (fun _ => false) (fun _ => .ok [])
    (fun _ n => List.replicate n (0 : ℚ)) (fun i n => by simp)).1
    (Or.inl rfl)).1

/-- Claim C7: the bulleted related-items listing has one bullet per entry in
group order; each bullet starts with the entry's name and renders the price,
brand and image link only when the field is present — an absent field leaves
no placeholder in the bullet. -/
theorem claim_C7_items_listing :
    (∀ g : List Item, (items_list g).length = g.length) ∧
    (∀ (g : List Item) (i : ℕ),
        (items_list g)[i]? = g[i]?.map item_info) ∧
    (∀ e : Item, ∃ rest,
        item_info e = ("* " ++ e.name.getD "Unknown Item") ++ rest) ∧
    (∀ e p, e.price = some p →
        str_occurs (" - Price: " ++ p) (item_info e) = true) ∧
    (∀ e b, e.brand = some b →
        str_occurs (" - Brand: " ++ b) (item_info e) = true) ∧
    (∀ e u, e.image_url = some u →
        str_occurs (" - [View Image](" ++ u ++ ")") (item_info e) = true) ∧
    (∀ e : Item, e.price = none → e.brand = none → e.image_url = none →
        item_info e = "* " ++ e.name.getD "Unknown Item") := by
  refine ⟨?_, ?_, ?_, ?_, ?_, ?_, ?_⟩
  · intro g; simp [items_list]
  · intro g i; simp [items_list, List.getElem?_map]
  · intro e
    refine ⟨(match e.price with
              | some p => " - Price: " ++ p
              | none => "") ++
            ((match e.brand with
              | some b => " - Brand: " ++ b
              | none => "") ++
             (match e.image_url with
              | some u => " - [View Image](" ++ u ++ ")"
              | none => "")), ?_⟩
    simp [item_info, String.append_assoc]
  · intro e p hp
    show occurs (" - Price: " ++ p).data (item_info e).data = true
    simp only [item_info, hp, String.data_append, List.append_assoc]
    exact occurs_append_right _ (occurs_append_right _ (occurs_mid _ _ _))
  · intro e b hb
    show occurs (" - Brand: " ++ b).data (item_info e).data = true
    simp only [item_info, hb, String.data_append, List.append_assoc]
    exact occurs_append_right _ (occurs_append_right _
      (occurs_append_right _ (occurs_mid _ _ _)))
  · intro e u hu
    show occurs (" - [View Image](" ++ u ++ ")").data (item_info e).data = true
    simp only [item_info, hu, String.data_append, List.append_assoc]
    exact occurs_append_right _ (occurs_append_right _ (occurs_append_right _
      (occurs_append_right _ (occurs_self _))))
  · intro e hp hb hu
    simp [item_info, hp, hb, hu, String.append_empty]

/-- Concrete instance of claim C7: an entry with a name and price but no
brand or image link renders exactly one bullet with no empty placeholder. -/
theorem claim_C7_witness :
    str_occurs " - Price: $89"
        (item_info (Item.mk (some "Classic Shirt") none (some "$89") none none)) =
      true ∧
    (items_list [Item.mk (some "Classic Shirt") none (some "$89") none none]).length
      = 1 := by
  constructor
  · exact claim_C7_items_listing.2.2.2.1
      (Item.mk (some "Classic Shirt") none (some "$89") none none) "$89" rfl
  · exact claim_C7_items_listing.1 _

theorem occurs_hdr (r : List Char) :
    occurs ("Related Items").data (("\n\n## Related Items Found\n\n").data ++ r) =
      true := by
  have h : ("\n\n## Related Items Found\n\n").data =
      ("\n\n## ").data ++ (("Related Items").data ++ (" Found\n\n").data) := by
    decide
  rw [h, List.append_assoc, List.append_assoc]
  exact occurs_append_right _ (occurs_here _ _)

theorem fallback_contains_name (mq : String) (m : Item) (sc : ℚ) (itxt : String) :
    str_occurs (m.name.getD "Unknown") (fallback_report mq m sc itxt) = true := by
  show occurs _ _ = true
  simp only [fallback_report, String.data_append, List.append_assoc]
  exact occurs_append_right _ (occurs_append_right _
    (occurs_append_right _ (occurs_here _ _)))

theorem fallback_contains_price (mq : String) (m : Item) (sc : ℚ) (itxt : String) :
    str_occurs (m.price.getD "Unknown") (fallback_report mq m sc itxt) = true := by
  show occurs _ _ = true
  simp only [fallback_report, String.data_append, List.append_assoc]
  exact occurs_append_right _ (occurs_append_right _ (occurs_append_right _
    (occurs_append_right _ (occurs_append_right _ (occurs_append_right _
      (occurs_append_right _ (occurs_here _ _)))))))

theorem fallback_contains_score (mq : String) (m : Item) (sc : ℚ) (itxt : String) :
    str_occurs (fmt2 sc) (fallback_report mq m sc itxt) = true := by
  show occurs _ _ = true
  simp only [fallback_report, String.data_append, List.append_assoc]
  exact occurs_append_right _ (occurs_append_right _ (occurs_append_right _
    (occurs_append_right _ (occurs_append_right _ (occurs_append_right _
      (occurs_append_right _ (occurs_append_right _ (occurs_append_right _
        (occurs_here _ _)))))))))

theorem fallback_contains_items (mq : String) (m : Item) (sc : ℚ) (itxt : String) :
    str_occurs itxt (fallback_report mq m sc itxt) = true := by
  show occurs _ _ = true
  simp only [fallback_report, String.data_append, List.append_assoc]
  exact occurs_append_right _ (occurs_append_right _ (occurs_append_right _
    (occurs_append_right _ (occurs_append_right _ (occurs_append_right _
      (occurs_append_right _ (occurs_append_right _ (occurs_append_right _
        (occurs_append_right _ (occurs_append_right _ (occurs_here _ _)))))))))))

theorem fallback_contains_related (mq : String) (m : Item) (sc : ℚ)
    (itxt : String) :
    str_occurs "Related Items" (fallback_report mq m sc itxt) = true := by
  show occurs _ _ = true
  simp only [fallback_report, String.data_append, List.append_assoc]
  exact occurs_append_right _ (occurs_append_right _ (occurs_append_right _
    (occurs_append_right _ (occurs_append_right _ (occurs_append_right _
      (occurs_append_right _ (occurs_append_right _ (occurs_append_right _
        (occurs_append_right _ (occurs_hdr _))))))))))

theorem generate_response_const (backend : String → Option String → PostResult)
    (txt : String) (hbk : ∀ p i, backend p i = PostResult.ok 200 (some txt))
    (p : String) (i : Option String) : generate_response backend p i = txt := by
  simp [generate_response, hbk]

/-- Claim C3: whenever the generation capability returns text whose stripped
length is below the fixed 100-character minimum (the empty string included),
`generate_fashion_response` discards it and returns the deterministic
fallback report, which contains the matched item's name, its price, the
similarity score, and the full related-items listing. -/
theorem claim_C3_short_reply_fallback
    (backend : String → Option String → PostResult) (b64 : Option String)
    (m : Item) (items : List Item) (score thr : ℚ) (txt : String)
    (hbk : ∀ p i, backend p i = PostResult.ok 200 (some txt))
    (hshort : (strip txt).length < 100) :
    generate_fashion_response backend b64 m items score thr =
      fallback_report (match_quality score thr) m score (items_text items) ∧
    str_occurs (m.name.getD "Unknown")
      (generate_fashion_response backend b64 m items score thr) = true ∧
    str_occurs (m.price.getD "Unknown")
      (generate_fashion_response backend b64 m items score thr) = true ∧
    str_occurs (fmt2 score)
      (generate_fashion_response backend b64 m items score thr) = true ∧
    str_occurs (items_text items)
      (generate_fashion_response backend b64 m items score thr) = true := by
  have hmain : generate_fashion_response backend b64 m items score thr =
      fallback_report (match_quality score thr) m score (items_text items) := by
    simp only [generate_fashion_response]
    rw [generate_response_const backend txt hbk]
    rw [if_pos (Or.inr hshort)]
    rw [if_neg]
    rintro ⟨-, h2⟩
    rw [fallback_contains_related] at h2
    exact Bool.noConfusion h2
  refine ⟨hmain, ?_, ?_, ?_, ?_⟩ <;> rw [hmain]
  · exact fallback_contains_name _ _ _ _
  · exact fallback_contains_price _ _ _ _
  · exact fallback_contains_score _ _ _ _
  · exact fallback_contains_items _ _ _ _

/-- Concrete instance of claim C3: the generation capability returns the
empty string and the synthesizer yields the fallback report. -/
theorem claim_C3_witness :
    (∀ p i, (fun (_ : String) (_ : Option String) =>
        PostResult.ok 200 (some "")) p i = PostResult.ok 200 (some "")) ∧
    (strip "").length < 100 ∧
    generate_fashion_response
        (fun _ _ => PostResult.ok 200 (some "")) none
        (Item.mk (some "Elegant Blazer") (some "Fashion House") (some "$299")
          (some "Blazer") (some "http://example.com/blazer.jpg"))
        [Item.mk (some "Elegant Blazer") (some "Fashion House") (some "$299")
          (some "Blazer") (some "http://example.com/blazer.jpg")]
        (19 / 20) (8 / 10) =
      fallback_report (match_quality (19 / 20) (8 / 10))
        (Item.mk (some "Elegant Blazer") (some "Fashion House") (some "$299")
          (some "Blazer") (some "http://example.com/blazer.jpg"))
        (19 / 20)
        (items_text
          [Item.mk (some "Elegant Blazer") (some "Fashion House") (some "$299")
            (some "Blazer") (some "http://example.com/blazer.jpg")]) :=
  ⟨fun _ _ => rfl, by decide,
    (claim_C3_short_reply_fallback _ none _ _ (19 / 20) (8 / 10) ""
      (fun _ _ => rfl) (by decide)).1⟩

/-- Claim C4: when the generation capability returns sufficiently long text
that does not contain a related-items section header, the synthesizer appends
the related-items listing verbatim as a trailing section, so the report is
never missing the catalog alternatives. -/
theorem claim_C4_append_related
    (backend : String → Option String → PostResult) (b64 : Option String)
    (m : Item) (items : List Item) (score thr : ℚ) (txt : String)
    (hbk : ∀ p i, backend p i = PostResult.ok 200 (some txt))
    (hlen : ¬ (strip txt).length < 100)
    (hri1 : str_occurs "RELATED ITEMS" txt = false)
    (hri2 : str_occurs "Related Items" txt = false) :
    generate_fashion_response backend b64 m items score thr =
      txt ++ "\n\n## Related Items Found\n\n" ++ items_text items ∧
    str_occurs (items_text items)
      (generate_fashion_response backend b64 m items score thr) = true := by
  have hne : ¬ (txt = "" ∨ (strip txt).length < 100) := by
    rintro (h | h)
    · subst h; exact hlen (by decide)
    · exact hlen h
  have hmain : generate_fashion_response backend b64 m items score thr =
      txt ++ "\n\n## Related Items Found\n\n" ++ items_text items := by
    simp only [generate_fashion_response]
    rw [generate_response_const backend txt hbk]
    rw [if_neg hne]
    rw [if_pos ⟨hri1, hri2⟩]
  refine ⟨hmain, ?_⟩
  rw [hmain]
  show occurs _ _ = true
  simp only [String.data_append, List.append_assoc]
  exact occurs_append_right _ (occurs_append_right _ (occurs_self _))

/-- Concrete instance of claim C4: a long generated reply without a
related-items header gets the listing appended. -/
theorem claim_C4_witness :
    (¬ ("aaaaaaaaaaaaaaaaaaaaaaaaaaaaaaaaaaaaaaaaaaaaaaaaaaaaaaaaaaaaaaaaaaaaaaaaaaaaaaaaaaaaaaaaaaaaaaaaaaaaaaaaaaaaaaaaaaaa").length < 100) ∧
    generate_fashion_response
        (fun _ _ => PostResult.ok 200
          (some "aaaaaaaaaaaaaaaaaaaaaaaaaaaaaaaaaaaaaaaaaaaaaaaaaaaaaaaaaaaaaaaaaaaaaaaaaaaaaaaaaaaaaaaaaaaaaaaaaaaaaaaaaaaaaaaaaaaa"))
        none (Item.mk (some "Classic Shirt") none (some "$89") none none)
        [Item.mk (some "Classic Shirt") none (some "$89") none none]
        (1 / 2) (8 / 10) =
      "aaaaaaaaaaaaaaaaaaaaaaaaaaaaaaaaaaaaaaaaaaaaaaaaaaaaaaaaaaaaaaaaaaaaaaaaaaaaaaaaaaaaaaaaaaaaaaaaaaaaaaaaaaaaaaaaaaaa"
        ++ "\n\n## Related Items Found\n\n" ++
        items_text [Item.mk (some "Classic Shirt") none (some "$89") none none] :=
  ⟨by decide,
    (claim_C4_append_related _ none _ _ (1 / 2) (8 / 10) _
      (fun _ _ => rfl) (by decide) (by decide) (by decide)).1⟩

/-- The error string rendered by `generate_response` (llm_service.py lines
108-114) for a generation-layer failure: a raised exception or a non-200
HTTP status. -/
def gen_error_string : PostResult → String
  | .exn e => "Error generating response: " ++ e
  | .ok status _ => "Error generating response: HTTP " ++ toString status

theorem generate_response_err (backend : String → Option String → PostResult)
    (pr : PostResult) (hbk : ∀ p i, backend p i = pr)
    (herr : ∀ st c, pr = PostResult.ok st c → st ≠ 200)
    (p : String) (i : Option String) :
    generate_response backend p i = gen_error_string pr := by
  cases pr with
  | exn e => simp [generate_response, gen_error_string, hbk]
  | ok st c =>
      have hne : st ≠ 200 := herr st c rfl
      simp [generate_response, gen_error_string, hbk, hne]

/-- Claim C2 (amended): `generate_fashion_response` always returns a string
and never propagates a generation failure as an exception; a generation-layer
error (raised exception or non-200 status) is converted into the
deterministic fallback report exactly when its rendered error string is
shorter than the 100-character minimum once stripped — a longer error string
is instead returned as the report body with the related-items listing
appended. -/
theorem claim_C2_amended
    (backend : String → Option String → PostResult) (b64 : Option String)
    (m : Item) (items : List Item) (score thr : ℚ) (pr : PostResult)
    (hbk : ∀ p i, backend p i = pr)
    (herr : ∀ st c, pr = PostResult.ok st c → st ≠ 200) :
    ((strip (gen_error_string pr)).length < 100 →
       generate_fashion_response backend b64 m items score thr =
         fallback_report (match_quality score thr) m score (items_text items)) ∧
    (¬ (strip (gen_error_string pr)).length < 100 →
       str_occurs "RELATED ITEMS" (gen_error_string pr) = false →
       str_occurs "Related Items" (gen_error_string pr) = false →
       generate_fashion_response backend b64 m items score thr =
         gen_error_string pr ++ "\n\n## Related Items Found\n\n" ++
           items_text items) := by
  constructor
  · intro hshort
    simp only [generate_fashion_response]
    rw [generate_response_err backend pr hbk herr]
    rw [if_pos (Or.inr hshort)]
    rw [if_neg]
    rintro ⟨-, h2⟩
    rw [fallback_contains_related] at h2
    exact Bool.noConfusion h2
  · intro hlen hri1 hri2
    have hne : ¬ (gen_error_string pr = "" ∨
        (strip (gen_error_string pr)).length < 100) := by
      rintro (h | h)
      · exact hlen (h ▸ (by decide : (strip "").length < 100))
      · exact hlen h
    simp only [generate_fashion_response]
    rw [generate_response_err backend pr hbk herr]
    rw [if_neg hne]
    rw [if_pos ⟨hri1, hri2⟩]

/-- Concrete instance of claim C2 (amended): a raised connection error with a
short message is converted into the fallback report. -/
theorem claim_C2_witness :
    (∀ p i, (fun (_ : String) (_ : Option String) =>
        PostResult.exn "conn refused") p i = PostResult.exn "conn refused") ∧
    (strip (gen_error_string (PostResult.exn "conn refused"))).length < 100 ∧
    generate_fashion_response (fun _ _ => PostResult.exn "conn refused") none
        (Item.mk (some "Designer Dress") (some "Trendy Brand") (some "$199")
          (some "Dress") none)
        [Item.mk (some "Designer Dress") (some "Trendy Brand") (some "$199")
          (some "Dress") none]
        (1 / 2) (8 / 10) =
      fallback_report (match_quality (1 / 2) (8 / 10))
        (Item.mk (some "Designer Dress") (some "Trendy Brand") (some "$199")
          (some "Dress") none)
        (1 / 2)
        (items_text
          [Item.mk (some "Designer Dress") (some "Trendy Brand") (some "$199")
            (some "Dress") none]) :=
  ⟨fun _ _ => rfl, by decide,
    (claim_C2_amended _ none _ _ (1 / 2) (8 / 10) (PostResult.exn "conn refused")
      (fun _ _ => rfl) (fun _ _ h => PostResult.noConfusion h)).1 (by decide)⟩

set_option maxRecDepth 100000 in
/-- Refutation of claim C2 as stated: a generation-layer exception whose
message is 80 characters long yields an error string of stripped length over
100, which is returned to the caller (with the related-items listing
appended) instead of being converted into the fallback report. -/
theorem claim_C2_counterexample :
    generate_fashion_response
        (fun _ _ => PostResult.exn
          "xxxxxxxxxxxxxxxxxxxxxxxxxxxxxxxxxxxxxxxxxxxxxxxxxxxxxxxxxxxxxxxxxxxxxxxxxxxxxxxx")
        none (Item.mk (some "Classic Shirt") none (some "$89") none none)
        [Item.mk (some "Classic Shirt") none (some "$89") none none]
        (19 / 20) (8 / 10) =
      "Error generating response: xxxxxxxxxxxxxxxxxxxxxxxxxxxxxxxxxxxxxxxxxxxxxxxxxxxxxxxxxxxxxxxxxxxxxxxxxxxxxxxx"
        ++ "\n\n## Related Items Found\n\n" ++
        items_text [Item.mk (some "Classic Shirt") none (some "$89") none none] ∧
    generate_fashion_response
        (fun _ _ => PostResult.exn
          "xxxxxxxxxxxxxxxxxxxxxxxxxxxxxxxxxxxxxxxxxxxxxxxxxxxxxxxxxxxxxxxxxxxxxxxxxxxxxxxx")
        none (Item.mk (some "Classic Shirt") none (some "$89") none none)
        [Item.mk (some "Classic Shirt") none (some "$89") none none]
        (19 / 20) (8 / 10) ≠
      fallback_report (match_quality (19 / 20) (8 / 10))
        (Item.mk (some "Classic Shirt") none (some "$89") none none)
        (19 / 20)
        (items_text [Item.mk (some "Classic Shirt") none (some "$89") none none]) := by
  constructor
  · decide
  · decide

/-- Claim C1: `process_image` always yields a plain string result (raised
collaborator exceptions included — they are caught and rendered), and every
stage-local failure (unresolvable input, missing file, encoder returning no
vector, no match found) short-circuits: it returns its stage-specific error
string and the recorded stage trace shows that no later stage ran. -/
theorem claim_C1_orchestrator (env : Env) (image : GradioInput) :
    (∃ out stages, process_image env image = (out, stages)) ∧
    (resolve_path image = none →
       process_image env image =
         ("Error: Invalid image format received", [Stage.resolve])) ∧
    (∀ p, resolve_path image = some p → env.file_on_disk p = false →
       process_image env image =
         ("Error: Image file not found at " ++ p, [Stage.resolve])) ∧
    (∀ p e, resolve_path image = some p → env.file_on_disk p = true →
       env.encode_image p = .error e →
       process_image env image =
         ("Error processing image: " ++ e, [Stage.resolve, Stage.encode])) ∧
    (∀ p enc, resolve_path image = some p → env.file_on_disk p = true →
       env.encode_image p = .ok enc → enc.vector = none →
       process_image env image =
         ("Error: " ++
            enc.error.getD "Unable to process the image. Please try another image.",
          [Stage.resolve, Stage.encode])) ∧
    (∀ p enc v, resolve_path image = some p → env.file_on_disk p = true →
       env.encode_image p = .ok enc → enc.vector = some v →
       env.find_closest v = .ok none →
       process_image env image =
         ("Error: Unable to find a match. Please try another image.",
          [Stage.resolve, Stage.encode, Stage.matchStage])) ∧
    (∀ p enc v e, resolve_path image = some p → env.file_on_disk p = true →
       env.encode_image p = .ok enc → enc.vector = some v →
       env.find_closest v = .error e →
       process_image env image =
         ("Error processing image: " ++ e,
          [Stage.resolve, Stage.encode, Stage.matchStage])) := by
  refine ⟨⟨_, _, rfl⟩, ?_, ?_, ?_, ?_, ?_, ?_⟩
  · intro h
    simp [process_image, h]
  · intro p h1 h2
    simp [process_image, h1, h2]
  · intro p e h1 h2 h3
    simp [process_image, h1, h2, h3]
  · intro p enc h1 h2 h3 h4
    simp [process_image, h1, h2, h3, h4]
  · intro p enc v h1 h2 h3 h4 h5
    simp [process_image, h1, h2, h3, h4, h5]
  · intro p enc v e h1 h2 h3 h4 h5
    simp [process_image, h1, h2, h3, h4, h5]

/-- Concrete instance of claim C1: the encoder yields no vector, and the
orchestrator returns the encoder's error string having run only the resolve
and encode stages. -/
theorem claim_C1_witness :
    resolve_path (GradioInput.fileObj "/x.jpg") = some "/x.jpg" ∧
    process_image
      { file_on_disk := fun _ => true,
        encode_image := fun _ => .ok (EncodeResult.mk none none (some "bad file")),
        find_closest := fun _ => .ok none,
        get_all_items := fun _ => .ok [],
        gen_fashion := fun _ _ _ _ => .ok "",
        do_process_response := fun s => .ok s,
        unlink_ok := fun _ => true }
      (GradioInput.fileObj "/x.jpg") =
      ("Error: bad file", [Stage.resolve, Stage.encode]) :=
  ⟨rfl,
    (claim_C1_orchestrator
      { file_on_disk := fun _ => true,
        encode_image := fun _ => .ok (EncodeResult.mk none none (some "bad file")),
        find_closest := fun _ => .ok none,
        get_all_items := fun _ => .ok [],
        gen_fashion := fun _ _ _ _ => .ok "",
        do_process_response := fun s => .ok s,
        unlink_ok := fun _ => true }
      (GradioInput.fileObj "/x.jpg")).2.2.2.2.1 "/x.jpg"
      (EncodeResult.mk none none (some "bad file")) rfl rfl rfl rfl⟩

/-- Claim C9 (amended): the transient temp file is released only on the
successful completion path — for a file-object input under `/tmp/` the
cleanup stage runs after synthesis, the unlink outcome never influences the
returned report, but early stage-local error exits return without attempting
the release. -/
theorem claim_C9_amended :
    (∀ (env : Env) (n : String) (enc : EncodeResult) (v : List ℚ) (row : Item)
        (score : ℚ) (items : List Item) (txt out : String) (u : String → Bool),
       leads ("/tmp/").data n.data = true →
       env.file_on_disk n = true →
       env.encode_image n = .ok enc →
       enc.vector = some v →
       env.find_closest v = .ok (some (row, score)) →
       env.get_all_items (row.image_url.getD "") = .ok items →
       items ≠ [] →
       env.gen_fashion enc.base64 row items score = .ok txt →
       env.do_process_response txt = .ok out →
       process_image { env with unlink_ok := u } (GradioInput.fileObj n) =
         (out, [Stage.resolve, Stage.encode, Stage.matchStage, Stage.group,
                Stage.synth, Stage.cleanup, Stage.format])) ∧
    (∀ (env : Env) (n : String) (enc : EncodeResult),
       env.file_on_disk n = true →
       env.encode_image n = .ok enc →
       enc.vector = none →
       Stage.cleanup ∉ (process_image env (GradioInput.fileObj n)).2) := by
  constructor
  · intro env n enc v row score items txt out u h0 h1 h2 h3 h4 h5 h6 h7 h8
    simp [process_image, resolve_path, is_tmp_file_obj, h0, h1, h2, h3, h4, h5,
      h6, h7, h8]
  · intro env n enc h1 h2 h3
    simp [process_image, resolve_path, h1, h2, h3]

/-- Concrete instance of claim C9 (amended): a successful run over a `/tmp/`
file object records the cleanup stage and returns the formatted report,
with an unlink that reports failure. -/
theorem claim_C9_witness :
    (leads ("/tmp/").data ("/tmp/upload.jpg").data = true) ∧
    process_image
      { file_on_disk := fun _ => true,
        encode_image := fun _ =>
          .ok (EncodeResult.mk (some [1]) (some "b64") none),
        find_closest := fun _ =>
          .ok (some (Item.mk (some "Classic Shirt") none none none none, 1)),
        get_all_items := fun _ =>
          .ok [Item.mk (some "Classic Shirt") none none none none],
        gen_fashion := fun _ _ _ _ => .ok "report",
        do_process_response := fun s => .ok s,
        unlink_ok := fun _ => false }
      (GradioInput.fileObj "/tmp/upload.jpg") =
      ("report", [Stage.resolve, Stage.encode, Stage.matchStage, Stage.group,
                  Stage.synth, Stage.cleanup, Stage.format]) :=
  ⟨rfl,
    claim_C9_amended.1
      { file_on_disk := fun _ => true,
        encode_image := fun _ =>
          .ok (EncodeResult.mk (some [1]) (some "b64") none),
        find_closest := fun _ =>
          .ok (some (Item.mk (some "Classic Shirt") none none none none, 1)),
        get_all_items := fun _ =>
          .ok [Item.mk (some "Classic Shirt") none none none none],
        gen_fashion := fun _ _ _ _ => .ok "report",
        do_process_response := fun s => .ok s,
        unlink_ok := fun _ => false }
      "/tmp/upload.jpg" (EncodeResult.mk (some [1]) (some "b64") none) [1]
      (Item.mk (some "Classic Shirt") none none none none) 1
      [Item.mk (some "Classic Shirt") none none none none] "report" "report"
      (fun _ => false) rfl rfl rfl rfl rfl rfl (by simp) rfl rfl⟩

/-- Refutation of claim C9 as stated: on an early error exit (the encoder
produced no vector) for a `/tmp/` file-object input, the cleanup stage never
runs — the transient file is not released on that exit path. -/
theorem claim_C9_counterexample :
    process_image
      { file_on_disk := fun _ => true,
        encode_image := fun _ => .ok (EncodeResult.mk none none (some "bad")),
        find_closest := fun _ => .ok none,
        get_all_items := fun _ => .ok [],
        gen_fashion := fun _ _ _ _ => .ok "",
        do_process_response := fun s => .ok s,
        unlink_ok := fun _ => true }
      (GradioInput.fileObj "/tmp/upload.jpg") =
      ("Error: bad", [Stage.resolve, Stage.encode]) ∧
    Stage.cleanup ∉ [Stage.resolve, Stage.encode] := by
  exact ⟨rfl, by decide⟩

end FashionFinder
